import Mathlib

/-!
Shallow embedding of the slide-build orchestration scripts
`src/build.py` and `src/old_build.py`.

Both scripts drive the same three-stage pipeline: validate the
environment (`check_paths`), construct the Pandoc argument list, execute
Pandoc as a subprocess and report the outcome (`run_pandoc`), with
`build.py` adding a CLI dispatch layer (`main`).

The filesystem and the behaviour of the external `pandoc` binary are
modelled by an explicit environment record (`Env`) and an outcome value
(`PandocOutcome`); the observable behaviour of a run is a list of events
(`Ev`) plus the process exit status, collected in `RunResult`.
-/

namespace SlideBuild

/-- Observable events of a run: which validation checks were evaluated,
what was printed, and when the converter subprocess was spawned.
`evalSource`, `evalReveal`, `evalPandoc` record that the corresponding
check was evaluated (with its outcome); `mkdirOutput` records the
output-directory creation step. -/
inductive Ev where
  | evalSource (ok : Bool)
  | reportSlides (n : Nat)
  | evalReveal (ok : Bool)
  | evalPandoc (ok : Bool)
  | mkdirOutput
  | printCmdDisplay (s : String)
  | printFullCmd (s : String)
  | spawnConverter (args : List String)
  | printOutputSize (n : Nat)
  | divide (num den : Nat)
  | printStdoutBlock (s : String)
  | printErrLine (s : String)
  | printErrBlock (s : String)
  | printInfoLine (s : String)
  | printSummary (srcSize outSize : Nat)
  | printHelp
  | printVersion
  deriving DecidableEq, Repr

/-- The state of the world a run starts in: which files and tools exist.
`sourceContent`/`sourceReadOk` model `SOURCE_MD.read_text`;
`revealJsDistExists` models `(REVEAL_VENDOR / "dist" / "reveal.js").exists()`
(checked by `build.py`); `revealVendorIsDir` models
`REVEAL_VENDOR.is_dir()` (checked by `old_build.py`); `pandocCheckOk`
models whether `subprocess.run(["pandoc", "--version"], ...)` completes
without raising. `sourceExistsAfter`/`sourceSizeAfter` are the results
of re-statting the source after the converter ran (the source may have
been removed in between). -/
structure Env where
  sourceExists : Bool
  sourceContent : String
  sourceReadOk : Bool
  sourceSize : Nat
  revealJsDistExists : Bool
  revealVendorIsDir : Bool
  pandocCheckOk : Bool
  outputDirExists : Bool
  outputExistsBefore : Bool
  outputSizeBefore : Nat
  sourceExistsAfter : Bool
  sourceSizeAfter : Nat
  deriving DecidableEq, Repr

/-- Outcome of the attempt to run the converter subprocess:
`completed rc stdout stderr wroteOutput outputSize` models a child that
ran and exited with status `rc`, having (or not) written the output
artifact; `notFound` models `FileNotFoundError` (the binary is not on
the PATH); `interrupted` models a `KeyboardInterrupt` delivered while
the child runs. -/
inductive PandocOutcome where
  | completed (returncode : Nat) (stdout stderr : String)
      (wroteOutput : Bool) (outputSize : Nat)
  | notFound
  | interrupted
  deriving DecidableEq, Repr

/-- Python's `content.count('\n---\n')`: the number of non-overlapping
occurrences of the separator `'\n---\n'`, scanning left to right and
resuming after each whole match. -/
def countSepFrom : List Char → Nat
  | '\n' :: '-' :: '-' :: '-' :: '\n' :: rest => countSepFrom rest + 1
  | _ :: rest => countSepFrom rest
  | [] => 0

/-- Computes `slide_count = content.count('\n---\n') + 1` from
`check_paths` of `build.py`. -/
def slideCount (content : String) : Nat := countSepFrom content.data + 1

/-- Events of the source-file check of `build.py`'s `check_paths`: if
the source exists, its size and (when `read_text` succeeds) the
approximate slide count are reported. -/
def sourceCheckEvents (env : Env) : List Ev :=
  if env.sourceExists then
    Ev.evalSource true ::
      (if env.sourceReadOk then [Ev.reportSlides (slideCount env.sourceContent)]
       else [])
  else [Ev.evalSource false]

/-- Value of `checks_passed` at the end of `build.py`'s `check_paths`: the
source-file, reveal.js, and pandoc checks all passed (the
output-directory step never sets it to `False`). -/
def validationPassed (env : Env) : Bool :=
  env.sourceExists && env.revealJsDistExists && env.pandocCheckOk

/-- Function `check_paths` of `build.py`: evaluates every check unconditionally,
creates the output directory, and returns whether all checks passed
(`False` makes the script `exit(1)`). -/
def check_paths (env : Env) : List Ev × Bool :=
  (sourceCheckEvents env ++
    [Ev.evalReveal env.revealJsDistExists,
     Ev.evalPandoc env.pandocCheckOk,
     Ev.mkdirOutput],
   validationPassed env)

/-- Function `check_paths` of `old_build.py`: exits at the first failing check
(source file, then vendor directory), and only afterwards creates the
output directory when it does not already exist. There is no pandoc
check. `false` in the second component means the script called
`exit(1)`. -/
def old_check_paths (env : Env) : List Ev × Bool :=
  if !env.sourceExists then ([Ev.evalSource false], false)
  else if !env.revealVendorIsDir then
    ([Ev.evalSource true, Ev.evalReveal false], false)
  else
    ([Ev.evalSource true, Ev.evalReveal true] ++
       (if env.outputDirExists then [] else [Ev.mkdirOutput]),
     true)

/-- The Pandoc argument list built by `build.py`'s `run_pandoc`, a
function of the build timestamp and the commit hash (all paths are
module-level constants: `slides/deck.md`, `dist/index.html`,
`revealjs`). -/
def pandoc_args (buildTime commitHash : String) : List String :=
  ["pandoc",
   "slides/deck.md",
   "-t", "revealjs",
   "-o", "dist/index.html",
   "--standalone",
   "--embed-resources",
   "--slide-level=1",
   "-V", "revealjs-url=revealjs",
   "-V", "theme=black",
   "-V", "slide-number=true",
   "-V", "transition=slide",
   "-V", "controls=true",
   "-V", "progress=true",
   "-V", "center=true",
   "-V", "mouseWheel=true",
   "-V", "showSlideProgress=true",
   "-V", "build-time=" ++ buildTime,
   "-V", "commit-hash=" ++ commitHash,
   "--strip-comments",
   "--resource-path=.:slides:."]

/-- Computes `cmd_text = " ".join(pandoc_args)` in `build.py`. -/
def cmd_text (buildTime commitHash : String) : String :=
  String.intercalate " " (pandoc_args buildTime commitHash)

/-- Value `cmd_display` in `build.py`: the command text truncated to its
first 100 characters (plus `"..."`) when longer than 100. -/
def cmd_display (buildTime commitHash : String) : String :=
  let t := cmd_text buildTime commitHash
  if t.length > 100 then t.take 100 ++ "..." else t

/-- Python's default whitespace set for `str.strip()` (space, tab,
newline, carriage return, vertical tab, form feed). -/
def pyIsSpace (c : Char) : Bool :=
  c == ' ' || c == '\t' || c == '\n' || c == '\r' || c == '\x0b' ||
    c == '\x0c'

/-- Python's `str.strip()` with no arguments: removes leading and
trailing whitespace. -/
def pyStrip (s : String) : String :=
  ⟨((s.data.dropWhile pyIsSpace).reverse.dropWhile pyIsSpace).reverse⟩

/-- Splitting a character list at newline characters, keeping empty
segments, as Python's `str.split('\n')` does. -/
def splitNlChars : List Char → List (List Char)
  | [] => [[]]
  | '\n' :: rest => [] :: splitNlChars rest
  | c :: rest =>
    match splitNlChars rest with
    | [] => [c] :: []
    | h :: t => (c :: h) :: t

/-- Python's `str.split('\n')`. -/
def pySplitLines (s : String) : List String :=
  (splitNlChars s.data).map String.mk

/-- Computes `e.stderr.strip().split('\n')[-5:]` filtered to nonempty lines, as
printed by `build.py`'s `CalledProcessError` handler. -/
def trailingErrLines (stderr : String) : List String :=
  let ls := pySplitLines (pyStrip stderr)
  (ls.drop (ls.length - 5)).filter (fun l => pyStrip l ≠ "")

/-- Whether the output artifact exists once the converter attempt is
over: a completed child may have written it; otherwise only a
pre-existing file remains. -/
def outputAfterConverter (env : Env) : PandocOutcome → Bool
  | .completed _ _ _ wrote _ => env.outputExistsBefore || wrote
  | _ => env.outputExistsBefore

/-- The output artifact's size after the converter attempt (the value
`OUTPUT_HTML.stat().st_size` would report). -/
def outputSizeAfter (env : Env) : PandocOutcome → Nat
  | .completed _ _ _ wrote sz => if wrote then sz else env.outputSizeBefore
  | _ => env.outputSizeBefore

/-- Events of `build.py`'s success branch (child exited 0): output size
report with the guarded compression ratio (`divide` happens only when
`source_size > 0`), the child's stderr echoed as informational lines,
and the summary table when both files exist. -/
def successEvents (env : Env) (stderr : String) (wrote : Bool)
    (outSize : Nat) : List Ev :=
  let outExists := env.outputExistsBefore || wrote
  let outSz := if wrote then outSize else env.outputSizeBefore
  let srcSz := if env.sourceExistsAfter then env.sourceSizeAfter else 0
  (if outExists then
     Ev.printOutputSize outSz ::
       (if srcSz > 0 then [Ev.divide outSz srcSz] else [])
   else []) ++
  (if stderr ≠ "" then
     ((pySplitLines (pyStrip stderr)).filter
        (fun l => pyStrip l ≠ "")).map Ev.printInfoLine
   else []) ++
  (if outExists && env.sourceExistsAfter then
     [Ev.printSummary env.sourceSizeAfter outSz]
   else [])

/-- Function `run_pandoc` of `build.py` (reached only after validation passed):
prints the truncated command display, the full command when verbose,
attempts to spawn Pandoc, then branches on the outcome. Second
component is the process exit status the branch leads to (`0` when
`main` runs to completion, `1` after `exit(1)`, `130` after
`exit(130)`). -/
def run_pandoc (verbose : Bool) (env : Env)
    (buildTime commitHash : String) (outcome : PandocOutcome) :
    List Ev × Nat :=
  let args := pandoc_args buildTime commitHash
  let pre :=
    Ev.printCmdDisplay (cmd_display buildTime commitHash) ::
      (if verbose then [Ev.printFullCmd (cmd_text buildTime commitHash)]
       else []) ++
      [Ev.spawnConverter args]
  match outcome with
  | .completed rc so se wrote outSize =>
    if rc = 0 then
      (pre ++ successEvents env se wrote outSize, 0)
    else
      (pre ++
        (if so ≠ "" then [Ev.printStdoutBlock so] else []) ++
        (trailingErrLines se).map Ev.printErrLine,
       1)
  | .notFound => (pre, 1)
  | .interrupted => (pre, 130)

/-- Result of a whole run: observable events, process exit status, and
whether the output artifact exists at the end. -/
structure RunResult where
  events : List Ev
  exitCode : Nat
  outputExists : Bool
  deriving DecidableEq, Repr

/-- Pipeline of `build.py` (`check_paths` then `run_pandoc`), as invoked
by `main` once the CLI flags have been dispatched: a failed validation
calls `exit(1)` before the converter stage. -/
def pipelineRun (verbose : Bool) (env : Env)
    (buildTime commitHash : String) (outcome : PandocOutcome) :
    RunResult :=
  let cp := check_paths env
  if cp.2 then
    let rp := run_pandoc verbose env buildTime commitHash outcome
    { events := cp.1 ++ rp.1,
      exitCode := rp.2,
      outputExists := outputAfterConverter env outcome }
  else
    { events := cp.1, exitCode := 1,
      outputExists := env.outputExistsBefore }

/-- The Pandoc argument list of `old_build.py`'s `run_pandoc`
(entirely constant). -/
def old_pandoc_args : List String :=
  ["pandoc",
   "slides/deck.md",
   "-t", "revealjs",
   "-o", "dist/index.html",
   "--standalone",
   "--embed-resources",
   "--slide-level=1",
   "-V", "slide-number=true",
   "-V", "revealjs-url=revealjs",
   "-V", "theme=black",
   "--strip-comments"]

/-- Computes `' '.join(str(a) for a in pandoc_args)` in `old_build.py`. -/
def old_cmd_text : String := String.intercalate " " old_pandoc_args

/-- Function `run_pandoc` of `old_build.py`: always prints the full command
before executing; on `CalledProcessError` prints the full command again
and the whole stderr, then `exit(1)`. It has no `KeyboardInterrupt`
handler: an interrupt terminates the interpreter with a nonzero status
(modelled as 1; no claim depends on its exact value). -/
def old_run_pandoc (outcome : PandocOutcome) : List Ev × Nat :=
  let pre := [Ev.printFullCmd old_cmd_text,
              Ev.spawnConverter old_pandoc_args]
  match outcome with
  | .completed rc _so se _wrote _outSize =>
    if rc = 0 then
      (pre ++ (if se ≠ "" then [Ev.printInfoLine se] else []), 0)
    else
      (pre ++ [Ev.printFullCmd old_cmd_text, Ev.printErrBlock se], 1)
  | .notFound => (pre, 1)
  | .interrupted => (pre, 1)

/-- Top-level script of `old_build.py`: `check_paths()` (which exits on
the first failing check) then `run_pandoc()`. -/
def old_pipelineRun (env : Env) (outcome : PandocOutcome) : RunResult :=
  let cp := old_check_paths env
  if cp.2 then
    let rp := old_run_pandoc outcome
    { events := cp.1 ++ rp.1,
      exitCode := rp.2,
      outputExists := outputAfterConverter env outcome }
  else
    { events := cp.1, exitCode := 1,
      outputExists := env.outputExistsBefore }

/-- Function `main` of `build.py`: dispatches on `sys.argv[1]` alone for
help/version (returning makes the interpreter exit 0); otherwise runs
the pipeline, with verbose mode when `--verbose` or `-v` appears
anywhere in `sys.argv`. `argv` includes the program name at the
head. -/
def mainRun (argv : List String) (env : Env)
    (buildTime commitHash : String) (outcome : PandocOutcome) :
    RunResult :=
  let verbose := argv.contains "--verbose" || argv.contains "-v"
  match argv with
  | _ :: a1 :: _ =>
    if a1 ∈ (["--help", "-h", "help"] : List String) then
      { events := [Ev.printHelp], exitCode := 0,
        outputExists := env.outputExistsBefore }
    else if a1 ∈ (["--version", "-V"] : List String) then
      { events := [Ev.printVersion], exitCode := 0,
        outputExists := env.outputExistsBefore }
    else pipelineRun verbose env buildTime commitHash outcome
  | _ => pipelineRun verbose env buildTime commitHash outcome

/-- Models `pathlib.Path.mkdir(parents=True, exist_ok=True)` on an
abstract set of existing directories: creating an already-existing
directory succeeds and changes nothing (second component: success). -/
def mkdir_parents_exist_ok (dirs : List String) (d : String) :
    List String × Bool :=
  if d ∈ dirs then (dirs, true) else (d :: dirs, true)

/-- The converter contract of the spec: whenever the child exits 0 it
has produced the output artifact. -/
def converterHonored : PandocOutcome → Bool
  | .completed 0 _ _ wrote _ => wrote
  | _ => true

/-- Payloads of all print events, for statements about what a run
printed. -/
def printedStrings (evs : List Ev) : List String :=
  evs.filterMap fun ev =>
    match ev with
    | .printCmdDisplay s => some s
    | .printFullCmd s => some s
    | .printStdoutBlock s => some s
    | .printErrLine s => some s
    | .printErrBlock s => some s
    | .printInfoLine s => some s
    | _ => none

/-- Number of converter-spawn events in a trace. -/
def spawnCount (evs : List Ev) : Nat :=
  evs.countP fun ev =>
    match ev with
    | .spawnConverter _ => true
    | _ => false

/-- Number of bounded error lines printed in a trace. -/
def errLineCount (evs : List Ev) : Nat :=
  evs.countP fun ev =>
    match ev with
    | .printErrLine _ => true
    | _ => false

/-- Slide counts reported in a trace. -/
def slideReports (evs : List Ev) : List Nat :=
  evs.filterMap fun ev =>
    match ev with
    | .reportSlides n => some n
    | _ => none

/-- Every `divide` event in the trace has a strictly positive
divisor. -/
def divisorsPositive (evs : List Ev) : Bool :=
  evs.all fun ev =>
    match ev with
    | .divide _ d => decide (0 < d)
    | _ => true

/-- Scanner for the ordering guarantee: all four validation checks
(source, reveal.js, pandoc, output directory) have been evaluated
before every converter-spawn event. -/
def cbsAux (s r p o : Bool) : List Ev → Bool
  | [] => true
  | ev :: rest =>
    match ev with
    | .spawnConverter _ => s && r && p && o && cbsAux s r p o rest
    | .evalSource _ => cbsAux true r p o rest
    | .evalReveal _ => cbsAux s true p o rest
    | .evalPandoc _ => cbsAux s r true o rest
    | .mkdirOutput => cbsAux s r p true rest
    | _ => cbsAux s r p o rest

/-- All four validation checks complete before any converter spawn. -/
def checksBeforeSpawns (evs : List Ev) : Bool :=
  cbsAux false false false false evs

/-- The first converter-spawn event (if any) is preceded by a
full-command print of `cmd`. -/
def fullCmdPrecedesSpawn (cmd : String) : List Ev → Bool
  | [] => true
  | .printFullCmd s :: rest =>
    if s = cmd then true else fullCmdPrecedesSpawn cmd rest
  | .spawnConverter _ :: _ => false
  | _ :: rest => fullCmdPrecedesSpawn cmd rest

/-- An environment in which every validation check succeeds; the source
deck holds two slide separators. -/
def envAllGood : Env :=
  { sourceExists := true,
    sourceContent := "# A\n---\n# B\n---\n# C\n",
    sourceReadOk := true,
    sourceSize := 20,
    revealJsDistExists := true,
    revealVendorIsDir := true,
    pandocCheckOk := true,
    outputDirExists := true,
    outputExistsBefore := false,
    outputSizeBefore := 0,
    sourceExistsAfter := true,
    sourceSizeAfter := 20 }

/-- Like `envAllGood` but the source Markdown file is missing. -/
def envNoSource : Env := { envAllGood with sourceExists := false }

/-- Like `envAllGood` but the vendored reveal.js is missing and the
output directory does not exist yet. -/
def envNoVendor : Env :=
  { envAllGood with
    revealJsDistExists := false,
    revealVendorIsDir := false,
    outputDirExists := false }

/-- Like `envAllGood` but pandoc is not on the PATH. -/
def envNoPandoc : Env := { envAllGood with pandocCheckOk := false }

/-- Like `envAllGood` but the output directory does not exist yet. -/
def envDirMissing : Env := { envAllGood with outputDirExists := false }

/-! ### Helper lemmas -/

/-- Once all four checks have been seen, the ordering scanner accepts
any remaining trace. -/
theorem cbsAux_all_true (evs : List Ev) :
    cbsAux true true true true evs = true := by
  induction evs with
  | nil => rfl
  | cons ev rest ih => cases ev <;> simp [cbsAux, ih]

/-- The bounded error-line list never holds more than 5 lines. -/
theorem trailingErrLines_length_le (stderr : String) :
    (trailingErrLines stderr).length ≤ 5 := by
  unfold trailingErrLines
  refine le_trans (List.length_filter_le _ _) ?_
  rw [List.length_drop]
  omega

/-- When validation passes, the pipeline of `build.py` runs the
converter stage. -/
theorem pipelineRun_passed (verbose : Bool) (env : Env)
    (t c : String) (outcome : PandocOutcome)
    (hv : validationPassed env = true) :
    pipelineRun verbose env t c outcome =
      { events := (check_paths env).1 ++
          (run_pandoc verbose env t c outcome).1,
        exitCode := (run_pandoc verbose env t c outcome).2,
        outputExists := outputAfterConverter env outcome } := by
  simp [pipelineRun, check_paths, hv]

/-! ### Claims -/

/-- The field at index 28 of the argument list is the timestamp field;
masking it abstracts the only run-varying component besides the commit
hash. -/
def maskTimestamp (l : List String) : List String :=
  l.set 28 "<TIMESTAMP>"

/-- C2: the Command Builder of `build.py` is a pure function of the
configuration and the revision identifier: two argument lists built with
the same commit hash agree byte-for-byte once the timestamp field
(index 28) is masked, and that field is exactly `build-time=<timestamp>`. -/
theorem c2_command_builder_deterministic (t₁ t₂ c : String) :
    maskTimestamp (pandoc_args t₁ c) = maskTimestamp (pandoc_args t₂ c) ∧
    (pandoc_args t₁ c)[28]? = some ("build-time=" ++ t₁) ∧
    (pandoc_args t₂ c)[28]? = some ("build-time=" ++ t₂) ∧
    (pandoc_args t₁ c).length = (pandoc_args t₂ c).length := by
  exact ⟨rfl, rfl, rfl, rfl⟩

/-- C3 counterexample: with the source file missing, the validator of
`old_build.py` stops after the first check — the vendor-directory check
and the output-directory step are never evaluated, and the pandoc check
does not exist in that script at all. -/
theorem c3_counterexample :
    old_check_paths envNoSource = ([Ev.evalSource false], false) := by
  decide

/-- C3 amended: in `build.py`, all four validation checks (source file,
reveal.js assets, pandoc discoverability, output directory) are
evaluated and reported for every environment, regardless of earlier
failures. -/
theorem c3_amended_all_checks_evaluated (env : Env) :
    Ev.evalSource env.sourceExists ∈ (check_paths env).1 ∧
    Ev.evalReveal env.revealJsDistExists ∈ (check_paths env).1 ∧
    Ev.evalPandoc env.pandocCheckOk ∈ (check_paths env).1 ∧
    Ev.mkdirOutput ∈ (check_paths env).1 := by
  cases hs : env.sourceExists <;> cases hr : env.sourceReadOk <;>
    simp [check_paths, sourceCheckEvents, hs, hr]

/-- C6: when the source file exists and is readable, the validator of
`build.py` reports exactly one slide count, equal to the number of
(non-overlapping) slide separators `'\n---\n'` in the file plus one. -/
theorem c6_slide_count_reported (env : Env)
    (hex : env.sourceExists = true) (hrd : env.sourceReadOk = true) :
    slideReports (check_paths env).1 =
      [countSepFrom env.sourceContent.data + 1] := by
  simp [check_paths, sourceCheckEvents, hex, hrd, slideReports,
    slideCount]

/-- Witness for C6: a deck with exactly two slide separators is
reported as 3 slides. -/
theorem c6_slide_count_reported_witness :
    countSepFrom envAllGood.sourceContent.data = 2 ∧
    slideReports (check_paths envAllGood).1 = [3] := by
  refine ⟨by decide, ?_⟩
  rw [c6_slide_count_reported envAllGood rfl rfl]
  decide

/-- C7 counterexample: in `old_build.py`, when the vendor directory is
missing, validation exits before reaching the output-directory step,
so the output directory is not created even though it does not exist. -/
theorem c7_counterexample :
    Ev.mkdirOutput ∉ (old_check_paths envNoVendor).1 ∧
    (old_check_paths envNoVendor).2 = false ∧
    envNoVendor.outputDirExists = false := by
  decide

/-- C7 amended: `build.py` creates the output directory in every run of
its validator, even when other checks fail; `old_build.py` creates it
only once the source and vendor checks have passed and it is absent;
and directory creation (`mkdir(parents=True, exist_ok=True)`) is
idempotent — creating an existing directory succeeds and leaves the
directory set unchanged. -/
theorem c7_amended_output_dir_creation (env : Env) (fs : List String)
    (d : String) (hsrc : env.sourceExists = true)
    (hvend : env.revealVendorIsDir = true)
    (hdir : env.outputDirExists = false) (hmem : d ∈ fs) :
    (∀ e : Env, Ev.mkdirOutput ∈ (check_paths e).1) ∧
    Ev.mkdirOutput ∈ (old_check_paths env).1 ∧
    mkdir_parents_exist_ok fs d = (fs, true) := by
  refine ⟨?_, ?_, ?_⟩
  · intro e
    cases hs : e.sourceExists <;> cases hr : e.sourceReadOk <;>
      simp [check_paths, sourceCheckEvents, hs, hr]
  · simp [old_check_paths, hsrc, hvend, hdir]
  · simp [mkdir_parents_exist_ok, hmem]

/-- Witness for the amended C7 at a concrete environment and directory
set. -/
theorem c7_amended_output_dir_creation_witness :
    Ev.mkdirOutput ∈ (check_paths envNoSource).1 ∧
    Ev.mkdirOutput ∈ (old_check_paths envDirMissing).1 ∧
    mkdir_parents_exist_ok ["dist", "slides"] "dist" =
      (["dist", "slides"], true) := by
  refine ⟨(c7_amended_output_dir_creation envDirMissing ["dist", "slides"]
      "dist" (by decide) (by decide) (by decide) (by decide)).1 envNoSource,
    (c7_amended_output_dir_creation envDirMissing ["dist", "slides"]
      "dist" (by decide) (by decide) (by decide) (by decide)).2.1,
    (c7_amended_output_dir_creation envDirMissing ["dist", "slides"]
      "dist" (by decide) (by decide) (by decide) (by decide)).2.2⟩

/-- C8: a user interrupt while the converter child is running makes
`build.py` exit with the distinguished status 130 (its
`KeyboardInterrupt` handler), not the generic failure status. -/
theorem c8_interrupt_exits_130 (verbose : Bool) (env : Env)
    (t c : String) (hv : validationPassed env = true) :
    (pipelineRun verbose env t c PandocOutcome.interrupted).exitCode =
      130 := by
  rw [pipelineRun_passed verbose env t c PandocOutcome.interrupted hv]
  rfl

/-- Witness for C8 at a fully healthy environment. -/
theorem c8_interrupt_exits_130_witness :
    (pipelineRun false envAllGood "2024-01-01T00:00:00" "abc1234"
      PandocOutcome.interrupted).exitCode = 130 :=
  c8_interrupt_exits_130 false envAllGood "2024-01-01T00:00:00"
    "abc1234" (by decide)

/-- C1 counterexample: a converter that exits 0 without writing the
output artifact (e.g. a broken stub) makes `build.py` exit 0 although
the configured output file does not exist at the end of the run — the
success path never verifies the artifact before returning. -/
theorem c1_counterexample :
    (pipelineRun false envAllGood "2024-01-01T00:00:00" "abc1234"
        (PandocOutcome.completed 0 "" "" false 0)).exitCode = 0 ∧
    (pipelineRun false envAllGood "2024-01-01T00:00:00" "abc1234"
        (PandocOutcome.completed 0 "" "" false 0)).outputExists =
      false := by
  constructor
  · rfl
  · rfl

/-- C1 amended: both scripts exit 0 only when the converter subprocess
itself completed with status 0; provided the converter honors its
contract (an exit status of 0 means the artifact was written, spec §6),
an overall exit status of 0 implies the output artifact exists at the
configured path at the end of the run. -/
theorem c1_amended_exit_zero_implies_output (verbose : Bool)
    (env : Env) (t c : String) (outcome : PandocOutcome)
    (hc : converterHonored outcome = true) :
    ((pipelineRun verbose env t c outcome).exitCode = 0 →
      (pipelineRun verbose env t c outcome).outputExists = true) ∧
    ((old_pipelineRun env outcome).exitCode = 0 →
      (old_pipelineRun env outcome).outputExists = true) := by
  constructor
  · intro h0
    by_cases hv : validationPassed env = true
    · rw [pipelineRun_passed verbose env t c outcome hv] at h0 ⊢
      rcases outcome with ⟨rc, so, se, wrote, sz⟩ | _ | _
      · rcases rc with _ | rc
        · simp only [converterHonored] at hc
          simp [outputAfterConverter, hc]
        · exfalso
          simp [run_pandoc] at h0
      · exfalso
        simp [run_pandoc] at h0
      · exfalso
        simp [run_pandoc] at h0
    · exfalso
      rw [Bool.not_eq_true] at hv
      simp [pipelineRun, check_paths, hv] at h0
  · intro h0
    by_cases hs : env.sourceExists = true
    · by_cases hvd : env.revealVendorIsDir = true
      · rcases outcome with ⟨rc, so, se, wrote, sz⟩ | _ | _
        · rcases rc with _ | rc
          · simp only [converterHonored] at hc
            simp [old_pipelineRun, old_check_paths, hs, hvd,
              outputAfterConverter, hc]
          · exfalso
            simp [old_pipelineRun, old_check_paths, hs, hvd,
              old_run_pandoc] at h0
        · exfalso
          simp [old_pipelineRun, old_check_paths, hs, hvd,
            old_run_pandoc] at h0
        · exfalso
          simp [old_pipelineRun, old_check_paths, hs, hvd,
            old_run_pandoc] at h0
      · exfalso
        rw [Bool.not_eq_true] at hvd
        simp [old_pipelineRun, old_check_paths, hs, hvd] at h0
    · exfalso
      rw [Bool.not_eq_true] at hs
      simp [old_pipelineRun, old_check_paths, hs] at h0

/-- Witness for the amended C1: a contract-honoring converter run ends
with exit 0 and the artifact present, in both scripts. -/
theorem c1_amended_exit_zero_implies_output_witness :
    converterHonored (PandocOutcome.completed 0 "" "" true 5000) =
      true ∧
    (pipelineRun false envAllGood "2024-01-01T00:00:00" "abc1234"
        (PandocOutcome.completed 0 "" "" true 5000)).outputExists =
      true ∧
    (old_pipelineRun envAllGood
        (PandocOutcome.completed 0 "" "" true 5000)).outputExists =
      true := by
  refine ⟨by decide, ?_, ?_⟩
  · exact (c1_amended_exit_zero_implies_output false envAllGood
      "2024-01-01T00:00:00" "abc1234"
      (PandocOutcome.completed 0 "" "" true 5000) (by decide)).1 rfl
  · exact (c1_amended_exit_zero_implies_output false envAllGood
      "2024-01-01T00:00:00" "abc1234"
      (PandocOutcome.completed 0 "" "" true 5000) (by decide)).2 rfl

/-- C4: in `build.py`, whenever any validation check fails the run
exits with status 1 and the converter subprocess is never spawned; and
in every run, all four validation checks are evaluated before any
converter spawn. -/
theorem c4_validation_gates_spawn (verbose : Bool) (env : Env)
    (t c : String) (outcome : PandocOutcome) :
    (validationPassed env = false →
      (pipelineRun verbose env t c outcome).exitCode = 1 ∧
      spawnCount (pipelineRun verbose env t c outcome).events = 0) ∧
    checksBeforeSpawns
      (pipelineRun verbose env t c outcome).events = true := by
  cases hs : env.sourceExists <;> cases hr : env.sourceReadOk <;>
    cases hrev : env.revealJsDistExists <;>
      cases hp : env.pandocCheckOk <;>
        simp [pipelineRun, check_paths, validationPassed,
          sourceCheckEvents, hs, hr, hrev, hp, spawnCount,
          checksBeforeSpawns, cbsAux, cbsAux_all_true,
          List.countP_cons, List.countP_nil]

/-- Witness for C4: with pandoc missing, the run exits 1 with no spawn,
and the ordering guarantee holds. -/
theorem c4_validation_gates_spawn_witness :
    (pipelineRun false envNoPandoc "2024-01-01T00:00:00" "abc1234"
        PandocOutcome.notFound).exitCode = 1 ∧
    spawnCount (pipelineRun false envNoPandoc "2024-01-01T00:00:00"
        "abc1234" PandocOutcome.notFound).events = 0 ∧
    checksBeforeSpawns (pipelineRun false envNoPandoc
        "2024-01-01T00:00:00" "abc1234"
        PandocOutcome.notFound).events = true := by
  refine ⟨((c4_validation_gates_spawn false envNoPandoc
      "2024-01-01T00:00:00" "abc1234" PandocOutcome.notFound).1
      (by decide)).1,
    ((c4_validation_gates_spawn false envNoPandoc
      "2024-01-01T00:00:00" "abc1234" PandocOutcome.notFound).1
      (by decide)).2,
    (c4_validation_gates_spawn false envNoPandoc
      "2024-01-01T00:00:00" "abc1234" PandocOutcome.notFound).2⟩

/-- Error-line counting distributes over list append. -/
theorem errLineCount_append (l₁ l₂ : List Ev) :
    errLineCount (l₁ ++ l₂) = errLineCount l₁ + errLineCount l₂ :=
  List.countP_append _ _ _

/-- Error-line counting on an empty trace. -/
theorem errLineCount_nil : errLineCount [] = 0 := rfl

/-- Error-line counting on a cons cell. -/
theorem errLineCount_cons (ev : Ev) (l : List Ev) :
    errLineCount (ev :: l) =
      (match ev with | .printErrLine _ => 1 | _ => 0) +
        errLineCount l := by
  unfold errLineCount
  rw [List.countP_cons]
  cases ev <;> (simp; try omega)

/-- Mapping strings to bounded error lines yields one count per
string. -/
theorem errLineCount_map_errLine (ls : List String) :
    errLineCount (ls.map Ev.printErrLine) = ls.length := by
  induction ls with
  | nil => rfl
  | cons a l ih =>
    rw [List.map_cons, errLineCount_cons, ih]
    simp [Nat.add_comm]

/-- The validator of `build.py` prints no bounded error lines. -/
theorem errLineCount_check (env : Env) :
    errLineCount (check_paths env).1 = 0 := by
  cases hs : env.sourceExists <;> cases hr : env.sourceReadOk <;>
    simp [check_paths, sourceCheckEvents, hs, hr, errLineCount_append,
      errLineCount_cons, errLineCount_nil]

set_option maxRecDepth 10000 in
/-- C5 counterexample: in a non-verbose run of `build.py` where pandoc
fails, the exact command that was run is never printed — only a display
truncated to 100 characters appears (the full command is printed only
in verbose mode), so the claim's "prints the exact command that was
run" is false for this run. -/
theorem c5_counterexample :
    (pipelineRun false envAllGood "2024-01-01T00:00:00" "abc1234"
        (PandocOutcome.completed 2 ""
          "pandoc: error one\npandoc: error two" false 0)).exitCode =
      1 ∧
    cmd_text "2024-01-01T00:00:00" "abc1234" ∉
      printedStrings (pipelineRun false envAllGood
        "2024-01-01T00:00:00" "abc1234"
        (PandocOutcome.completed 2 ""
          "pandoc: error one\npandoc: error two" false 0)).events := by
  constructor
  · rfl
  · decide

/-- C5 amended: on converter failure `build.py` prints at most the last
five nonempty trailing lines of the captured error stream and exits 1,
but prints only a command display truncated to 100 characters — the
exact command is printed only when verbose mode is on; when the
executable cannot be found it exits 1; `old_build.py` does print the
exact command on failure and exits 1. -/
theorem c5_amended_failure_reporting (verbose : Bool) (env : Env)
    (t c so se : String) (rc sz : Nat) (wrote : Bool)
    (hv : validationPassed env = true)
    (hsrc : env.sourceExists = true)
    (hvd : env.revealVendorIsDir = true)
    (hrc : rc ≠ 0) :
    ((pipelineRun verbose env t c
        (PandocOutcome.completed rc so se wrote sz)).exitCode = 1 ∧
     errLineCount (pipelineRun verbose env t c
        (PandocOutcome.completed rc so se wrote sz)).events =
       (trailingErrLines se).length ∧
     (trailingErrLines se).length ≤ 5 ∧
     Ev.printCmdDisplay (cmd_display t c) ∈
       (pipelineRun verbose env t c
         (PandocOutcome.completed rc so se wrote sz)).events ∧
     (verbose = true →
       Ev.printFullCmd (cmd_text t c) ∈
         (pipelineRun verbose env t c
           (PandocOutcome.completed rc so se wrote sz)).events)) ∧
    (pipelineRun verbose env t c PandocOutcome.notFound).exitCode =
      1 ∧
    ((old_pipelineRun env
        (PandocOutcome.completed rc so se wrote sz)).exitCode = 1 ∧
     Ev.printFullCmd old_cmd_text ∈
       (old_pipelineRun env
         (PandocOutcome.completed rc so se wrote sz)).events) := by
  rw [pipelineRun_passed verbose env t c
      (PandocOutcome.completed rc so se wrote sz) hv,
    pipelineRun_passed verbose env t c PandocOutcome.notFound hv]
  refine ⟨⟨?_, ?_, trailingErrLines_length_le se, ?_, ?_⟩, ?_, ?_, ?_⟩
  · simp [run_pandoc, hrc]
  · cases hverb : verbose <;> by_cases hso : so = "" <;>
      simp [run_pandoc, hrc, hverb, hso, errLineCount_append,
        errLineCount_cons, errLineCount_nil, errLineCount_map_errLine,
        errLineCount_check]
  · cases hverb : verbose <;>
      simp [run_pandoc, hrc, hverb]
  · intro hverb
    simp [run_pandoc, hrc, hverb]
  · simp [run_pandoc]
  · simp [old_pipelineRun, old_check_paths, hsrc, hvd, old_run_pandoc,
      hrc]
  · simp [old_pipelineRun, old_check_paths, hsrc, hvd, old_run_pandoc,
      hrc]

/-- Witness for the amended C5: a concrete verbose failing run with a
seven-line error stream. -/
theorem c5_amended_failure_reporting_witness :
    (pipelineRun true envAllGood "2024-01-01T00:00:00" "abc1234"
        (PandocOutcome.completed 2 "partial out"
          "l1\nl2\nl3\nl4\nl5\nl6\nl7" false 0)).exitCode = 1 ∧
    errLineCount (pipelineRun true envAllGood "2024-01-01T00:00:00"
        "abc1234" (PandocOutcome.completed 2 "partial out"
          "l1\nl2\nl3\nl4\nl5\nl6\nl7" false 0)).events ≤ 5 ∧
    Ev.printFullCmd (cmd_text "2024-01-01T00:00:00" "abc1234") ∈
      (pipelineRun true envAllGood "2024-01-01T00:00:00" "abc1234"
        (PandocOutcome.completed 2 "partial out"
          "l1\nl2\nl3\nl4\nl5\nl6\nl7" false 0)).events := by
  have h := c5_amended_failure_reporting true envAllGood
    "2024-01-01T00:00:00" "abc1234" "partial out"
    "l1\nl2\nl3\nl4\nl5\nl6\nl7" 2 0 false (by decide) (by decide)
    (by decide) (by decide)
  refine ⟨h.1.1, ?_, h.1.2.2.2.2 rfl⟩
  rw [h.1.2.1]
  exact h.1.2.2.1

/-- The converter stage always begins with the command display, the
full command when verbose, and the spawn attempt, in that order. -/
theorem run_pandoc_events_shape (verbose : Bool) (env : Env)
    (t c : String) (outcome : PandocOutcome) :
    ∃ rest, (run_pandoc verbose env t c outcome).1 =
      Ev.printCmdDisplay (cmd_display t c) ::
        ((if verbose then [Ev.printFullCmd (cmd_text t c)] else []) ++
          Ev.spawnConverter (pandoc_args t c) :: rest) := by
  rcases outcome with ⟨rc, so, se, wrote, sz⟩ | _ | _
  · by_cases hrc : rc = 0
    · refine ⟨successEvents env se wrote sz, ?_⟩
      simp [run_pandoc, hrc]
    · refine ⟨(if so = "" then [] else [Ev.printStdoutBlock so]) ++
        (trailingErrLines se).map Ev.printErrLine, ?_⟩
      simp [run_pandoc, hrc]
  · exact ⟨[], by simp [run_pandoc]⟩
  · exact ⟨[], by simp [run_pandoc]⟩

/-- In a verbose pipeline run of `build.py`, the full command is
printed before any converter spawn. -/
theorem fullCmdPrecedesSpawn_pipeline (env : Env) (t c : String)
    (outcome : PandocOutcome) :
    fullCmdPrecedesSpawn (cmd_text t c)
      (pipelineRun true env t c outcome).events = true := by
  obtain ⟨rest, hshape⟩ := run_pandoc_events_shape true env t c outcome
  by_cases hv : validationPassed env = true
  · rw [pipelineRun_passed true env t c outcome hv]
    show fullCmdPrecedesSpawn (cmd_text t c)
      ((check_paths env).1 ++ (run_pandoc true env t c outcome).1) =
        true
    rw [hshape]
    cases hs : env.sourceExists <;> cases hr : env.sourceReadOk <;>
      simp [check_paths, sourceCheckEvents, hs, hr,
        fullCmdPrecedesSpawn]
  · rw [Bool.not_eq_true] at hv
    cases hs : env.sourceExists <;> cases hr : env.sourceReadOk <;>
      simp [pipelineRun, check_paths, hv, sourceCheckEvents, hs, hr,
        fullCmdPrecedesSpawn]

/-- C9 counterexample: the invocation
`build.py --verbose --help` contains `--help`, yet usage is not printed
and (with the source file missing) the run exits 1, because `main`
dispatches on `sys.argv[1]` alone. -/
theorem c9_counterexample :
    (mainRun ["build.py", "--verbose", "--help"] envNoSource
        "2024-01-01T00:00:00" "abc1234"
        PandocOutcome.notFound).exitCode = 1 ∧
    Ev.printHelp ∉
      (mainRun ["build.py", "--verbose", "--help"] envNoSource
        "2024-01-01T00:00:00" "abc1234"
        PandocOutcome.notFound).events := by
  constructor
  · rfl
  · decide

/-- C9 amended: when the FIRST command-line argument is `--help`, `-h`
(or `help`), `build.py` prints usage and exits 0; when the first
argument is `--version` or `-V`, it prints the version and exits 0;
and whenever `--verbose` or `-v` appears anywhere in the argument list,
the full constructed converter command line is printed before any
converter spawn. -/
theorem c9_amended_cli_dispatch (prog t c : String)
    (rest : List String) (env : Env) (outcome : PandocOutcome) :
    ((mainRun (prog :: "--help" :: rest) env t c outcome).exitCode =
        0 ∧
     Ev.printHelp ∈
       (mainRun (prog :: "--help" :: rest) env t c outcome).events) ∧
    ((mainRun (prog :: "-h" :: rest) env t c outcome).exitCode = 0 ∧
     Ev.printHelp ∈
       (mainRun (prog :: "-h" :: rest) env t c outcome).events) ∧
    ((mainRun (prog :: "--version" :: rest) env t c
        outcome).exitCode = 0 ∧
     Ev.printVersion ∈
       (mainRun (prog :: "--version" :: rest) env t c
         outcome).events) ∧
    ((mainRun (prog :: "-V" :: rest) env t c outcome).exitCode = 0 ∧
     Ev.printVersion ∈
       (mainRun (prog :: "-V" :: rest) env t c outcome).events) ∧
    (∀ argv : List String,
      (argv.contains "--verbose" || argv.contains "-v") = true →
      fullCmdPrecedesSpawn (cmd_text t c)
        (mainRun argv env t c outcome).events = true) := by
  refine ⟨⟨rfl, ?_⟩, ⟨rfl, ?_⟩, ⟨rfl, ?_⟩, ⟨rfl, ?_⟩, ?_⟩
  · show Ev.printHelp ∈ [Ev.printHelp]
    simp
  · show Ev.printHelp ∈ [Ev.printHelp]
    simp
  · show Ev.printVersion ∈ [Ev.printVersion]
    simp
  · show Ev.printVersion ∈ [Ev.printVersion]
    simp
  · intro argv hverb
    rcases argv with _ | ⟨a0, _ | ⟨a1, rest1⟩⟩
    · simp [List.contains] at hverb
    · simp only [mainRun]
      rw [hverb]
      exact fullCmdPrecedesSpawn_pipeline env t c outcome
    · by_cases h1 : a1 ∈ (["--help", "-h", "help"] : List String)
      · simp [mainRun, h1, fullCmdPrecedesSpawn]
      · by_cases h2 : a1 ∈ (["--version", "-V"] : List String)
        · simp [mainRun, h1, h2, fullCmdPrecedesSpawn]
        · simp only [mainRun, if_neg h1, if_neg h2]
          rw [hverb]
          exact fullCmdPrecedesSpawn_pipeline env t c outcome

/-- Witness for the amended C9 at concrete argument lists. -/
theorem c9_amended_cli_dispatch_witness :
    (mainRun ["build.py", "--help"] envAllGood "2024-01-01T00:00:00"
        "abc1234" PandocOutcome.notFound).exitCode = 0 ∧
    fullCmdPrecedesSpawn (cmd_text "2024-01-01T00:00:00" "abc1234")
      (mainRun ["build.py", "--verbose"] envAllGood
        "2024-01-01T00:00:00" "abc1234"
        PandocOutcome.notFound).events = true := by
  refine ⟨(c9_amended_cli_dispatch "build.py" "2024-01-01T00:00:00"
      "abc1234" [] envAllGood PandocOutcome.notFound).1.1, ?_⟩
  exact (c9_amended_cli_dispatch "build.py" "2024-01-01T00:00:00"
      "abc1234" [] envAllGood PandocOutcome.notFound).2.2.2.2
    ["build.py", "--verbose"] (by decide)

/-- Concatenation law for the positive-divisor scanner. -/
theorem divisorsPositive_append (l₁ l₂ : List Ev) :
    divisorsPositive (l₁ ++ l₂) =
      (divisorsPositive l₁ && divisorsPositive l₂) := by
  simp [divisorsPositive, List.all_append]

/-- The positive-divisor scanner on an empty trace. -/
theorem divisorsPositive_nil : divisorsPositive [] = true := rfl

/-- The positive-divisor scanner on a cons cell. -/
theorem divisorsPositive_cons (ev : Ev) (l : List Ev) :
    divisorsPositive (ev :: l) =
      ((match ev with
        | .divide _ d => decide (0 < d)
        | _ => true) && divisorsPositive l) := by
  simp [divisorsPositive, List.all_cons]

/-- Informational lines carry no division. -/
theorem divisorsPositive_map_info (ls : List String) :
    divisorsPositive (ls.map Ev.printInfoLine) = true := by
  induction ls with
  | nil => rfl
  | cons a l ih =>
    rw [List.map_cons, divisorsPositive_cons, ih]
    rfl

/-- Bounded error lines carry no division. -/
theorem divisorsPositive_map_err (ls : List String) :
    divisorsPositive (ls.map Ev.printErrLine) = true := by
  induction ls with
  | nil => rfl
  | cons a l ih =>
    rw [List.map_cons, divisorsPositive_cons, ih]
    rfl

/-- Every division in the success-path report has a positive divisor:
the compression ratio is computed only under the `source_size > 0`
guard. -/
theorem divisorsPositive_success (env : Env) (se : String)
    (wrote : Bool) (sz : Nat) :
    divisorsPositive (successEvents env se wrote sz) = true := by
  unfold successEvents
  cases hout : env.outputExistsBefore || wrote <;>
    cases hafter : env.sourceExistsAfter <;>
      by_cases hse : se = "" <;>
        by_cases hpos : env.sourceSizeAfter > 0 <;>
          simp [hout, hafter, hse, hpos, divisorsPositive_append,
            divisorsPositive_cons, divisorsPositive_nil,
            divisorsPositive_map_info]

/-- The validator trace contains no division. -/
theorem divisorsPositive_check (env : Env) :
    divisorsPositive (check_paths env).1 = true := by
  cases hs : env.sourceExists <;> cases hr : env.sourceReadOk <;>
    simp [check_paths, sourceCheckEvents, hs, hr,
      divisorsPositive_append, divisorsPositive_cons,
      divisorsPositive_nil]

/-- The converter stage trace never divides by a non-positive value. -/
theorem divisorsPositive_run (verbose : Bool) (env : Env)
    (t c : String) (outcome : PandocOutcome) :
    divisorsPositive (run_pandoc verbose env t c outcome).1 = true := by
  rcases outcome with ⟨rc, so, se, wrote, sz⟩ | _ | _
  · by_cases hrc : rc = 0 <;>
      cases hverb : verbose <;>
        by_cases hso : so = "" <;>
          simp [run_pandoc, hrc, hverb, hso, divisorsPositive_append,
            divisorsPositive_cons, divisorsPositive_nil,
            divisorsPositive_map_err, divisorsPositive_success]
  · cases hverb : verbose <;>
      simp [run_pandoc, hverb, divisorsPositive_append,
        divisorsPositive_cons, divisorsPositive_nil]
  · cases hverb : verbose <;>
      simp [run_pandoc, hverb, divisorsPositive_append,
        divisorsPositive_cons, divisorsPositive_nil]

/-- C10: in every run of `build.py`, every division performed by the
reporter has a strictly positive divisor (the compression ratio is
guarded by `source_size > 0`), so division by zero is unreachable —
including when the source file is empty or was removed after
validation; and on a successful run with a positive re-statted source
size, the compression division is actually performed with that
divisor. -/
theorem c10_no_division_by_zero (env : Env) (verbose : Bool)
    (t c so se : String) (sz : Nat)
    (hsrc : env.sourceExistsAfter = true)
    (hpos : 0 < env.sourceSizeAfter)
    (hv : validationPassed env = true) :
    (∀ (vb : Bool) (e : Env) (bt ch : String) (o : PandocOutcome),
      divisorsPositive (pipelineRun vb e bt ch o).events = true) ∧
    Ev.divide sz env.sourceSizeAfter ∈
      (pipelineRun verbose env t c
        (PandocOutcome.completed 0 so se true sz)).events := by
  constructor
  · intro vb e bt ch o
    by_cases hve : validationPassed e = true
    · rw [pipelineRun_passed vb e bt ch o hve]
      show divisorsPositive
        ((check_paths e).1 ++ (run_pandoc vb e bt ch o).1) = true
      rw [divisorsPositive_append, divisorsPositive_check,
        divisorsPositive_run]
      rfl
    · rw [Bool.not_eq_true] at hve
      simp only [pipelineRun, check_paths, hve, if_false,
        Bool.false_eq_true]
      exact divisorsPositive_check e
  · rw [pipelineRun_passed verbose env t c
      (PandocOutcome.completed 0 so se true sz) hv]
    show Ev.divide sz env.sourceSizeAfter ∈
      (check_paths env).1 ++
        (run_pandoc verbose env t c
          (PandocOutcome.completed 0 so se true sz)).1
    simp [run_pandoc, successEvents, hsrc, hpos]

/-- Witness for C10 at a successful concrete run: the reporter divides
5000 by the 20-byte source size, and all divisors are positive. -/
theorem c10_no_division_by_zero_witness :
    Ev.divide 5000 20 ∈
      (pipelineRun false envAllGood "2024-01-01T00:00:00" "abc1234"
        (PandocOutcome.completed 0 "" "" true 5000)).events ∧
    divisorsPositive (pipelineRun false envAllGood
        "2024-01-01T00:00:00" "abc1234"
        (PandocOutcome.completed 0 "" "" true 5000)).events = true := by
  constructor
  · exact (c10_no_division_by_zero envAllGood false
      "2024-01-01T00:00:00" "abc1234" "" "" 5000 (by decide)
      (by decide) (by decide)).2
  · exact (c10_no_division_by_zero envAllGood false
      "2024-01-01T00:00:00" "abc1234" "" "" 5000 (by decide)
      (by decide) (by decide)).1 false envAllGood
      "2024-01-01T00:00:00" "abc1234"
      (PandocOutcome.completed 0 "" "" true 5000)

end SlideBuild

